import Mathlib

/-!
Verification development for the AstraSemi training/demo backend
(`app.py`, `quality_insight_api.py`, `error_handler.py`).

The Python source is shallowly embedded below.  Conventions used
throughout:

* Python floats are modelled as exact rationals (`ℚ`); float rounding
  error is out of scope, but Python's `round` (banker's rounding on the
  exact value) is modelled faithfully by `pyRound`.
* Text handled by the validation / parsing code is modelled as
  `List Char`; Python `str.strip` becomes `pyStrip` over the ASCII
  whitespace class.
* The global NumPy random generator is modelled as an explicit stream of
  unit-interval variates (`RNG := Nat → ℚ`) threaded through every
  drawing function.  `np.random.seed(42)` replaces the ambient stream by
  the fixed stream `npSeed 42`.  The numeric shape of each variate
  (uniform, normal, integer) is a stand-in; only the state threading and
  the seeded/unseeded distinction carry proof weight.
* The external LLM gateway and the markdown renderer are modelled as
  function parameters of the orchestrator functions; dates are day
  counts (`Int`) relative to an arbitrary epoch, with `datetime.now()`
  passed in as a `today` parameter.
-/

/- Batteries marks the `Rat` arithmetic operations `@[irreducible]`, which
blocks `decide`/`rfl` evaluation of concrete rational computations; the
kernel itself ignores reducibility, so restoring the default setting only
lets concrete arithmetic evaluate. -/
set_option allowUnsafeReducibility true in
attribute [semireducible] Rat.mul Rat.inv Rat.add Rat.sub Rat.neg Rat.div Rat.ofScientific

/-! ### Python-level helpers -/

/-- The ASCII whitespace class stripped by Python's `str.strip()`. -/
def isPySpace (c : Char) : Bool :=
  c == ' ' || c == '\t' || c == '\n' || c == '\r' || c == '\x0b' || c == '\x0c'

/-- Python `str.strip()`: drop leading and trailing whitespace. -/
def pyStrip (s : List Char) : List Char :=
  (((s.dropWhile isPySpace).reverse).dropWhile isPySpace).reverse

/-- Python `int(x)` on a float: truncation toward zero. -/
def pyInt (q : ℚ) : Int :=
  if 0 ≤ q then Rat.floor q else -(Rat.floor (-q))

/-- Python `round(x, n)`: round to `n` decimal digits, ties to even. -/
def pyRound (q : ℚ) (n : Nat) : ℚ :=
  let p : ℚ := (10 : ℚ) ^ n
  let m := q * p
  let f := Rat.floor m
  let r := m - f
  (if r < 1/2 then (f : ℚ)
   else if 1/2 < r then (f : ℚ) + 1
   else if f % 2 = 0 then (f : ℚ) else (f : ℚ) + 1) / p

/-- Python `s.split(',')` on a character list. -/
def splitComma : List Char → List (List Char)
  | [] => [[]]
  | ',' :: rest => [] :: splitComma rest
  | c :: rest =>
    match splitComma rest with
    | w :: ws => (c :: w) :: ws
    | [] => [[c]]

/-- `str(i).zfill(3)` for machine ids. -/
def zfill3 (n : Nat) : String :=
  let s := toString n
  String.mk (List.replicate (3 - s.length) '0') ++ s

/-- Python `str.upper()` (ASCII, which is all the mode strings use). -/
def pyUpper (s : String) : String :=
  String.mk (s.data.map Char.toUpper)

/-! ### Risk Scorer (`app.py`, `process_equipment_data`, lines 193-202) -/

/-- One machine's numeric readings, as extracted from a CSV row
(`runtime_hours`, `last_maintenance_days`, `temperature`, `vibration`). -/
structure MachineReading where
  runtime_hours : ℚ
  last_maintenance_days : ℚ
  temperature : ℚ
  vibration : ℚ
deriving DecidableEq

/-- `runtime_risk = min(1.0, runtime_hours / 10000)`. -/
def runtimeRisk (r : MachineReading) : ℚ := min 1 (r.runtime_hours / 10000)

/-- `temp_risk = max(0, (temperature - 80) / 40)`. -/
def tempRisk (r : MachineReading) : ℚ := max 0 ((r.temperature - 80) / 40)

/-- `vibration_risk = max(0, (vibration - 8) / 12)`. -/
def vibrationRisk (r : MachineReading) : ℚ := max 0 ((r.vibration - 8) / 12)

/-- `maintenance_risk = min(1.0, last_maintenance_days / 365)`. -/
def maintenanceRisk (r : MachineReading) : ℚ := min 1 (r.last_maintenance_days / 365)

/-- `failure_probability = min(0.95, runtime_risk*0.3 + temp_risk*0.25 +
vibration_risk*0.25 + maintenance_risk*0.2)`. -/
def failure_probability (r : MachineReading) : ℚ :=
  min (95/100)
    (runtimeRisk r * (3/10) + tempRisk r * (25/100) +
      vibrationRisk r * (25/100) + maintenanceRisk r * (2/10))

/-- `health_score = max(5, 100 - (failure_probability * 95))`. -/
def health_score (r : MachineReading) : ℚ :=
  max 5 (100 - failure_probability r * 95)

/-! ### The global NumPy random generator, modelled as a variate stream -/

/-- The ambient NumPy random state: an infinite stream of unit-interval
variates, consumed one per draw. -/
def RNG : Type := Nat → ℚ

/-- The next variate of the stream. -/
def rngHead (g : RNG) : ℚ := g 0

/-- The stream after one draw. -/
def rngTail (g : RNG) : RNG := fun n => g (n + 1)

/-- `np.random.seed(n)`: the fixed variate stream the generator produces
after seeding with `n`.  (Stand-in for MT19937: the claims only depend on
this stream being a fixed function of the seed.) -/
def npSeed (n : Nat) : RNG :=
  fun k => (((1103515245 * (k + n) + 12345) % 2147483648 : Nat) : ℚ) / 2147483648

/-- `np.random.uniform(lo, hi)`: one draw from the ambient stream. -/
def npUniform (lo hi : ℚ) (g : RNG) : ℚ × RNG :=
  (lo + (hi - lo) * rngHead g, rngTail g)

/-- `np.random.normal(mu, sigma)`: one draw from the ambient stream (the
Gaussian inverse transform is abstracted; only the state threading
matters for the properties proved here). -/
def npNormal (mu sigma : ℚ) (g : RNG) : ℚ × RNG :=
  (mu + sigma * (2 * rngHead g - 1), rngTail g)

/-- `np.random.randint(lo, hi)`: one integer draw from `[lo, hi)`. -/
def npRandint (lo hi : Int) (g : RNG) : Int × RNG :=
  (lo + pyInt (rngHead g * ((hi : ℚ) - (lo : ℚ))), rngTail g)

/-! ### Per-machine records (`app.py`, Module 4) -/

/-- The per-machine dictionary appended by `process_equipment_data` and
`generate_equipment_data` (dates are day counts relative to the epoch of
the `today` parameter standing in for `datetime.now()`). -/
structure Machine where
  machine_id : String
  runtime_hours : ℚ
  last_maintenance_days : ℚ
  temperature : ℚ
  vibration : ℚ
  error_codes : List String
  error_count : Nat
  failure_probability : ℚ
  health_score : ℚ
  recommended_maintenance : Int
  days_to_maintenance : Int
deriving DecidableEq

/-- The risk-tier bucket draw shared by both data paths: uniform from
`(1,7)` if `failure_probability > 0.7`, `(7,30)` if `> 0.5`, `(30,90)`
if `> 0.3`, else `(90,180)`. -/
def maintenanceDraw (fp : ℚ) (g : RNG) : ℚ × RNG :=
  if 7/10 < fp then npUniform 1 7 g
  else if 1/2 < fp then npUniform 7 30 g
  else if 3/10 < fp then npUniform 30 90 g
  else npUniform 90 180 g

/-- A CSV row as seen by `process_equipment_data` via `row.get`: a field
that is `none` takes the documented default (`float(...)` coercion of
well-formed numeric strings is abstracted to the rational itself). -/
structure CsvRow where
  machineId? : Option String
  runtimeHours? : Option ℚ
  lastMaintenanceDays? : Option ℚ
  temperature? : Option ℚ
  vibration? : Option ℚ
  errorCodes? : Option (List Char)

/-- `[code.strip() for code in s.split(',') if code.strip()]`. -/
def parseErrorCodes (s : List Char) : List (List Char) :=
  ((splitComma s).map pyStrip).filter (fun w => !w.isEmpty)

/-- One iteration of the `process_equipment_data` loop: extract fields
with defaults (`Machine ID` defaulting to `MCH<idx>` with `idx` the
1-based position), score the reading, and draw the maintenance-date
offset from the ambient random stream. -/
def processRow (today : Int) (idx : Nat) (row : CsvRow) (g : RNG) : Machine × RNG :=
  let machine_id := row.machineId?.getD ("MCH" ++ zfill3 idx)
  let runtime_hours := row.runtimeHours?.getD 0
  let last_maintenance_days := row.lastMaintenanceDays?.getD 0
  let temperature := row.temperature?.getD 70
  let vibration := row.vibration?.getD 5
  let error_codes_str := pyStrip (row.errorCodes?.getD [])
  let error_codes := (parseErrorCodes error_codes_str).map String.mk
  let r : MachineReading := ⟨runtime_hours, last_maintenance_days, temperature, vibration⟩
  let fp := failure_probability r
  let hs := health_score r
  let (days_to_maintenance, g) := maintenanceDraw fp g
  (⟨machine_id, pyRound runtime_hours 1, pyRound last_maintenance_days 0,
    pyRound temperature 1, pyRound vibration 2, error_codes, error_codes.length,
    pyRound fp 3, pyRound hs 1, today + pyInt days_to_maintenance,
    pyInt days_to_maintenance⟩, g)

/-- Helper loop for `process_equipment_data`, carrying the 1-based index
used for defaulted machine ids. -/
def processRowsFrom (today : Int) : Nat → List CsvRow → RNG → List Machine × RNG
  | _, [], g => ([], g)
  | idx, row :: rest, g =>
    let (m, g) := processRow today idx row g
    let (ms, g) := processRowsFrom today (idx + 1) rest g
    (m :: ms, g)

/-- `process_equipment_data(df)`: process every CSV row in order,
threading the ambient random stream through the per-row offset draws. -/
def processEquipmentData (today : Int) (rows : List CsvRow) (g : RNG) : List Machine × RNG :=
  processRowsFrom today 1 rows g

/-- One iteration of the `generate_equipment_data` loop (note: unlike the
CSV path, `runtime_risk` and `maintenance_risk` are not clamped here). -/
def genMachine (today : Int) (mid : String) (g : RNG) : Machine × RNG :=
  let (runtime_hours, g) := npUniform 1000 10000 g
  let (days_since_maintenance, g) := npUniform 0 365 g
  let (tRaw, g) := npNormal 70 15 g
  let temperature := max 40 (min 120 tRaw)
  let (vibDraw, g) := npUniform 0 10 g
  let vibration0 := 5 + runtime_hours / 10000 * vibDraw
  let vibration := max 1 (min 20 vibration0)
  let (ecDraw, g) := npUniform 0 3 g
  let error_count : Nat := (pyInt ((runtime_hours / 2000 + vibration / 5) * ecDraw)).toNat
  let (error_codes, g) :=
    (List.range error_count).foldl
      (fun (acc : List String × RNG) _ =>
        let (v, g) := npRandint 100 999 acc.2
        (acc.1 ++ ["E" ++ zfill3 v.toNat], g))
      ([], g)
  let runtime_risk := runtime_hours / 10000
  let temp_risk := max 0 ((temperature - 80) / 40)
  let vibration_risk := max 0 ((vibration - 8) / 12)
  let maintenance_risk := days_since_maintenance / 365
  let fp := min (95/100)
    (runtime_risk * (3/10) + temp_risk * (25/100) +
      vibration_risk * (25/100) + maintenance_risk * (2/10))
  let hs := max 5 (100 - fp * 95)
  let (days_to_maintenance, g) := maintenanceDraw fp g
  (⟨mid, pyRound runtime_hours 1, pyRound days_since_maintenance 0,
    pyRound temperature 1, pyRound vibration 2, error_codes, error_codes.length,
    pyRound fp 3, pyRound hs 1, today + pyInt days_to_maintenance,
    pyInt days_to_maintenance⟩, g)

/-- Helper loop for `generate_equipment_data`. -/
def genMachines (today : Int) : List String → RNG → List Machine × RNG
  | [], g => ([], g)
  | mid :: rest, g =>
    let (m, g) := genMachine today mid g
    let (ms, g) := genMachines today rest g
    (m :: ms, g)

/-- `generate_equipment_data(num_machines=20)`: the function first calls
`np.random.seed(42)`, discarding the ambient random state `g` and
replacing it by the fixed stream `npSeed 42`, then generates machines
`MCH001`, `MCH002`, ... deterministically. -/
def generate_equipment_data (today : Int) (g : RNG) (num_machines : Nat := 20) :
    List Machine × RNG :=
  let _ambient := g
  let g := npSeed 42
  let machine_ids := (List.range num_machines).map (fun i => "MCH" ++ zfill3 (i + 1))
  genMachines today machine_ids g

/-- One point of the simulated 12-month trend series of
`api_predictive_data` (the month label `today - 30*i` stands in for the
`%Y-%m` formatting of `datetime.now() - timedelta(days=30*i)`). -/
structure TrendPoint where
  month : Int
  avg_failure_probability : ℚ
  incidents : Int
deriving DecidableEq

/-- Helper loop for `trendData`, in increasing `i`. -/
def trendLoop (today : Int) : Nat → Nat → RNG → List TrendPoint × RNG
  | _, 0, g => ([], g)
  | i, n + 1, g =>
    let (avgDraw, g) := npUniform (2/10) (6/10) g
    let (inc, g) := npRandint 0 5 g
    let (rest, g) := trendLoop today (i + 1) n g
    (⟨today - 30 * (i : Int), pyRound avgDraw 3, inc⟩ :: rest, g)

/-- The 12-point trend-chart simulation of `api_predictive_data`
(lines 466-476): twelve unseeded `np.random.uniform(0.2, 0.6)` and
`np.random.randint(0, 5)` draws, then the list is reversed. -/
def trendData (today : Int) (g : RNG) : List TrendPoint × RNG :=
  let (pts, g) := trendLoop today 0 12 g
  (pts.reverse, g)

/-! ### JSON values and a `json.loads` subset (`quality_insight_api.py`) -/

/-- JSON values, as produced by `json.loads` (restricted to the syntax the
quality-insight schema uses: no exponents and no unicode escapes). -/
inductive JsonVal where
  | null : JsonVal
  | bool (b : Bool) : JsonVal
  | num (q : ℚ) : JsonVal
  | str (s : List Char) : JsonVal
  | arr (elems : List JsonVal) : JsonVal
  | obj (fields : List (List Char × JsonVal)) : JsonVal

/-- JSON inter-token whitespace. -/
def jsonWs (c : Char) : Bool := c == ' ' || c == '\t' || c == '\n' || c == '\r'

/-- Skip JSON whitespace. -/
def skipWs : List Char → List Char
  | c :: rest => if jsonWs c then skipWs rest else c :: rest
  | [] => []

/-- Scan a JSON string body after the opening quote, handling the simple
escapes; returns the content and the remainder after the closing quote. -/
def scanStringBody : List Char → Option (List Char × List Char)
  | [] => none
  | '"' :: rest => some ([], rest)
  | '\\' :: e :: rest =>
    (match e with
     | '"' => some '"'
     | '\\' => some '\\'
     | '/' => some '/'
     | 'n' => some '\n'
     | 't' => some '\t'
     | 'r' => some '\r'
     | 'b' => some (Char.ofNat 8)
     | 'f' => some (Char.ofNat 12)
     | _ => none).bind
      (fun c => (scanStringBody rest).map
        (fun p : List Char × List Char => (c :: p.1, p.2)))
  | c :: rest => (scanStringBody rest).map (fun p => (c :: p.1, p.2))

/-- Scan a maximal run of decimal digits. -/
def scanDigits : List Char → List Char × List Char
  | c :: rest =>
    if c.isDigit then
      match scanDigits rest with
      | (ds, r) => (c :: ds, r)
    else ([], c :: rest)
  | [] => ([], [])

/-- Decimal digits to a natural number. -/
def digitsToNat (ds : List Char) : Nat :=
  ds.foldl (fun acc c => acc * 10 + (c.toNat - 48)) 0

/-- Scan a JSON number (optional sign, integer part, optional fraction). -/
def scanNumber (s : List Char) : Option (ℚ × List Char) :=
  let signed : Bool × List Char :=
    match s with
    | '-' :: rest => (true, rest)
    | _ => (false, s)
  match scanDigits signed.2 with
  | ([], _) => none
  | (ds, r) =>
    let intPart : ℚ := (digitsToNat ds : ℚ)
    match r with
    | '.' :: r2 =>
      match scanDigits r2 with
      | ([], _) => none
      | (fs, r3) =>
        let v := intPart + (digitsToNat fs : ℚ) / (10 : ℚ) ^ fs.length
        some (if signed.1 then -v else v, r3)
    | _ => some (if signed.1 then -intPart else intPart, r)

/-- Consume a literal keyword. -/
def dropLit (lit s : List Char) : Option (List Char) :=
  if s.take lit.length = lit then some (s.drop lit.length) else none

/-- Insert a parsed object member the way a Python `dict` does: a repeated
key keeps its first position but takes the last value. -/
def objInsert (o : List (List Char × JsonVal)) (k : List Char) (v : JsonVal) :
    List (List Char × JsonVal) :=
  if o.any (fun p => p.1 == k) then
    o.map (fun p => if p.1 == k then (p.1, v) else p)
  else o ++ [(k, v)]

mutual

/-- Parse one JSON value (fuel-bounded recursive descent). -/
def parseVal : Nat → List Char → Option (JsonVal × List Char)
  | 0, _ => none
  | fuel + 1, s =>
    match skipWs s with
    | [] => none
    | '"' :: rest => (scanStringBody rest).map (fun p => (JsonVal.str p.1, p.2))
    | '{' :: rest => parseObjFields fuel (skipWs rest) []
    | '[' :: rest => parseArrElems fuel (skipWs rest) []
    | s1 =>
      match dropLit "null".data s1 with
      | some r => some (JsonVal.null, r)
      | none =>
        match dropLit "true".data s1 with
        | some r => some (JsonVal.bool true, r)
        | none =>
          match dropLit "false".data s1 with
          | some r => some (JsonVal.bool false, r)
          | none => (scanNumber s1).map (fun p => (JsonVal.num p.1, p.2))

/-- Parse the members of a JSON object after its opening brace. -/
def parseObjFields : Nat → List Char → List (List Char × JsonVal) →
    Option (JsonVal × List Char)
  | 0, _, _ => none
  | fuel + 1, s, acc =>
    match s with
    | '}' :: rest => if acc.isEmpty then some (JsonVal.obj acc, rest) else none
    | '"' :: rest =>
      match scanStringBody rest with
      | none => none
      | some (key, r1) =>
        match skipWs r1 with
        | ':' :: r2 =>
          match parseVal fuel r2 with
          | none => none
          | some (v, r3) =>
            match skipWs r3 with
            | ',' :: r4 => parseObjFields fuel (skipWs r4) (objInsert acc key v)
            | '}' :: r4 => some (JsonVal.obj (objInsert acc key v), r4)
            | _ => none
        | _ => none
    | _ => none

/-- Parse the elements of a JSON array after its opening bracket. -/
def parseArrElems : Nat → List Char → List JsonVal → Option (JsonVal × List Char)
  | 0, _, _ => none
  | fuel + 1, s, acc =>
    match s with
    | ']' :: rest => if acc.isEmpty then some (JsonVal.arr acc, rest) else none
    | s1 =>
      match parseVal fuel s1 with
      | none => none
      | some (v, r1) =>
        match skipWs r1 with
        | ',' :: r2 => parseArrElems fuel (skipWs r2) (acc ++ [v])
        | ']' :: r2 => some (JsonVal.arr (acc ++ [v]), r2)
        | _ => none

end

/-- `json.loads`: a full-span parse, rejecting trailing content. -/
def jsonLoads (s : List Char) : Option JsonVal :=
  match parseVal (2 * s.length + 4) s with
  | some (v, rest) => if (skipWs rest).isEmpty then some v else none
  | none => none

/-! ### `parse_json_response` (`quality_insight_api.py`, lines 25-43) -/

/-- The backtick character of a markdown code fence. -/
def backtick : Char := Char.ofNat 96

/-- After a candidate closing brace: does the remaining text match the
regex tail `\s*` followed by three backticks? -/
def fenceTail (s : List Char) : Bool :=
  (s.dropWhile isPySpace).take 3 = [backtick, backtick, backtick]

/-- The lazy `\x7b.*?\x7d` of the fenced-block regex: the shortest span up
to a closing brace whose remainder matches the fence tail. -/
def findLazyClose : List Char → List Char → Option (List Char)
  | _, [] => none
  | acc, c :: rest =>
    if c == '}' && fenceTail rest then some (acc.reverse ++ ['}'])
    else findLazyClose (c :: acc) rest

/-- Try to match the fenced-block regex at the head of `s`: three
backticks, an optional `json` tag, whitespace, then the lazy brace span;
returns the regex's capture group (the braced span). -/
def tryFenceAt (s : List Char) : Option (List Char) :=
  match s with
  | c1 :: c2 :: c3 :: rest =>
    if c1 == backtick && c2 == backtick && c3 == backtick then
      let rest := if rest.take 4 = "json".data then rest.drop 4 else rest
      match rest.dropWhile isPySpace with
      | '{' :: rest2 => (findLazyClose [] rest2).map (fun mid => '{' :: mid)
      | _ => none
    else none
  | _ => none

/-- `re.search` for the fenced-block pattern: try every start position
from the left and return the first capture. -/
def findFenced : List Char → Option (List Char)
  | [] => none
  | c :: rest =>
    match tryFenceAt (c :: rest) with
    | some span => some span
    | none => findFenced rest

/-- The greedy `.*` of the bare `\x7b.*\x7d` pattern: everything up to
the last closing brace of the remainder, when one exists. -/
def lastBraceSpan (rest : List Char) : Option (List Char) :=
  let r := rest.reverse.dropWhile (fun c => !(c == '}'))
  if r.isEmpty then none else some r.reverse

/-- `re.search` for the first-brace-to-last-brace span of the text. -/
def findBrace : List Char → Option (List Char)
  | [] => none
  | '{' :: rest =>
    (match lastBraceSpan rest with
     | some mid => some ('{' :: mid)
     | none => findBrace rest)
  | _ :: rest => findBrace rest

/-- `parse_json_response(text)`: try the fenced code block first; if it is
absent or its contents fail to parse, try the first-to-last brace span;
if that also fails, return `None`. -/
def parse_json_response (text : List Char) : Option JsonVal :=
  match (findFenced text).bind jsonLoads with
  | some v => some v
  | none => (findBrace text).bind jsonLoads

/-! ### Quality-insight normalization (`generate_quality_insight`) -/

/-- The canonical disclaimer sentence. -/
def canonicalDisclaimer : List Char :=
  "This insight is general guidance and not a technical or engineering assessment.".data

/-- Key of the `riskLevel` field. -/
def kRiskLevel : List Char := "riskLevel".data

/-- Key of the `riskInterpretation` field. -/
def kRiskInterpretation : List Char := "riskInterpretation".data

/-- Key of the `keyPoints` field. -/
def kKeyPoints : List Char := "keyPoints".data

/-- Key of the `actions` field. -/
def kActions : List Char := "actions".data

/-- Key of the `clarifyingQuestions` field. -/
def kClarifyingQuestions : List Char := "clarifyingQuestions".data

/-- Key of the `disclaimer` field. -/
def kDisclaimer : List Char := "disclaimer".data

/-- A JSON string from a Lean string literal. -/
def jstr (s : String) : JsonVal := JsonVal.str s.data

/-- A JSON array of strings. -/
def jarr (xs : List String) : JsonVal := JsonVal.arr (xs.map (fun x => JsonVal.str x.data))

/-- Dictionary lookup (first matching key). -/
def lookupKey : List (List Char × JsonVal) → List Char → Option JsonVal
  | [], _ => none
  | p :: rest, k => if p.1 == k then some p.2 else lookupKey rest k

/-- `k in parsed` for the parsed dictionary. -/
def hasKey : List (List Char × JsonVal) → List Char → Bool
  | [], _ => false
  | p :: rest, k => p.1 == k || hasKey rest k

/-- `if k not in parsed: parsed[k] = v` — a missing key is appended at
the end in insertion order; a present key is left untouched. -/
def setDefault (o : List (List Char × JsonVal)) (k : List Char) (v : JsonVal) :
    List (List Char × JsonVal) :=
  if hasKey o k then o else o ++ [(k, v)]

/-- The six field-presence checks of `generate_quality_insight`
(lines 95-106), in source order. -/
def normalizeParsed (o : List (List Char × JsonVal)) : List (List Char × JsonVal) :=
  let o := setDefault o kDisclaimer (JsonVal.str canonicalDisclaimer)
  let o := setDefault o kRiskLevel (jstr "MEDIUM")
  let o := setDefault o kRiskInterpretation
    (jstr "The observation requires attention and follow-up.")
  let o := setDefault o kKeyPoints
    (jarr ["Review the observation details", "Consult with supervisor if needed"])
  let o := setDefault o kActions
    (jarr ["Document the observation", "Follow standard procedures", "Report if necessary"])
  let o := setDefault o kClarifyingQuestions (JsonVal.arr [])
  o

/-- The full fallback dictionary returned when the LLM response could not
be parsed (lines 112-130). -/
def fallbackInsight : List (List Char × JsonVal) :=
  [(kRiskLevel, jstr "MEDIUM"),
   (kRiskInterpretation,
     jstr "The observation has been noted and requires standard follow-up procedures."),
   (kKeyPoints,
     jarr ["Document the observation clearly", "Follow standard operating procedures",
       "Report to supervisor if needed"]),
   (kActions,
     jarr ["Review observation details", "Check standard procedures",
       "Consult with team if uncertain"]),
   (kClarifyingQuestions,
     jarr ["When did this observation occur?", "Has this been observed before?"]),
   (kDisclaimer, JsonVal.str canonicalDisclaimer)]

/-- `generate_quality_insight`, from the raw LLM response text on: parse,
then either normalize the parsed dictionary or fall back wholesale.  (The
Python guard is the truthiness test `if parsed:`, so an empty parsed
dictionary also takes the fallback; a successful parse of either regex
span is always a dictionary, since both spans start with a brace.) -/
def generate_quality_insight (response_text : List Char) : List (List Char × JsonVal) :=
  match parse_json_response response_text with
  | some (JsonVal.obj fields) =>
    if fields.isEmpty then fallbackInsight else normalizeParsed fields
  | some _ => fallbackInsight
  | none => fallbackInsight

/-! ### The quality-insight endpoint (`quality_insight`, lines 137-204) -/

/-- The JSON body of a quality-insight request. -/
structure QualityBody where
  observationText? : Option (List Char)
  context? : Option (List Char)

/-- The safe fallback dictionary the endpoint returns (status 200) when
`generate_quality_insight` raises (lines 164-179). -/
def safeFallbackInsight : List (List Char × JsonVal) :=
  [(kRiskLevel, jstr "MEDIUM"),
   (kRiskInterpretation,
     jstr "Unable to process observation at this time. Please consult with your supervisor."),
   (kKeyPoints,
     jarr ["Document the observation", "Follow standard procedures", "Report to supervisor"]),
   (kActions,
     jarr ["Review standard operating procedures", "Consult with team members",
       "Escalate if needed"]),
   (kClarifyingQuestions, JsonVal.arr []),
   (kDisclaimer, JsonVal.str canonicalDisclaimer)]

/-- The mock dictionary returned when no credential is configured
(lines 182-200). -/
def mockInsight : List (List Char × JsonVal) :=
  [(kRiskLevel, jstr "LOW"),
   (kRiskInterpretation,
     jstr "The observation appears routine. Continue monitoring and follow standard procedures."),
   (kKeyPoints,
     jarr ["Observation has been noted", "No immediate action required",
       "Continue standard monitoring"]),
   (kActions,
     jarr ["Document the observation", "Continue normal operations", "Report any changes"]),
   (kClarifyingQuestions,
     jarr ["Is this a recurring observation?", "Are there any patterns to note?"]),
   (kDisclaimer, JsonVal.str canonicalDisclaimer)]

/-- The endpoint's HTTP outcome: status, error body or insight body, and
whether the request reached the LLM gateway. -/
structure QIResponse where
  status : Nat
  error? : Option String
  insight? : Option (List (List Char × JsonVal))
  calledLLM : Bool

/-- The `quality_insight` endpoint: strip, validate (empty, then the
20/1000 length bounds, each a 400), then either call the LLM (whose raw
text or failure is the `llmResult` parameter) or return the mock
dictionary. -/
def quality_insight (apiReady : Bool) (llmResult : Except String (List Char))
    (body : QualityBody) : QIResponse :=
  let observation_text := pyStrip (body.observationText?.getD [])
  let _context := pyStrip (body.context?.getD "General process note".data)
  if observation_text.isEmpty then
    ⟨400, some "observationText is required", none, false⟩
  else if observation_text.length < 20 then
    ⟨400, some "observationText must be at least 20 characters", none, false⟩
  else if 1000 < observation_text.length then
    ⟨400, some "observationText must be at most 1000 characters", none, false⟩
  else if apiReady then
    match llmResult with
    | Except.ok response_text =>
      ⟨200, none, some (generate_quality_insight response_text), true⟩
    | Except.error _ => ⟨200, none, some safeFallbackInsight, true⟩
  else ⟨200, none, some mockInsight, false⟩

/-! ### The log-interpreter endpoint (`app.py`, `api_interpret`, lines 96-121) -/

/-- The `prompts` dictionary lookup `prompts.get(mode)`: `None` for a
mode outside the three recognized styles. -/
def prompts_get (mode : String) : Option String :=
  if mode = "summary" then
    some "Simplify this AstraSemi log for a trainee. Use beginner-friendly language."
  else if mode = "email" then
    some "Convert this log into a professional email for a department head."
  else if mode = "manager" then
    some "Summarize this for a manager's daily update focusing on impact."
  else none

/-- The interpreter endpoint's response: `jsonify({"analysis": ...})`,
always returned with status 200. -/
structure InterpretResponse where
  status : Nat
  analysis : String
deriving DecidableEq

/-- `api_interpret`: read `text` (default `""`) and `mode` (default
`"summary"`) from the JSON body; on the live path send the looked-up
system prompt and the user text to the gateway (modelled by the `llm`
parameter), catching any failure as a 200 "Authentication Error"
analysis; on the mock path return the generic mock analysis tagged with
the uppercased mode. -/
def api_interpret (llm : Option String → String → Except String String)
    (apiReady : Bool) (text? mode? : Option String) : InterpretResponse :=
  let user_text := text?.getD ""
  let mode := mode?.getD "summary"
  if apiReady then
    match llm (prompts_get mode) user_text with
    | Except.ok content => ⟨200, content⟩
    | Except.error e => ⟨200, "⚠️ Authentication Error: " ++ e⟩
  else
    ⟨200, "**[MOCK " ++ pyUpper mode ++ "]**\nEverything looks operational. Proceed with standard protocol."⟩

/-! ### The predictive-analysis endpoint (`app.py`, lines 494-576) and
the error handler (`error_handler.py`) -/

/-- The predictive-analysis endpoint's JSON outcome. -/
structure PredictiveResponse where
  status : Nat
  analysis? : Option String
  analysis_html? : Option String
  machine_data? : Option Machine
  error? : Option String
  message? : Option String

/-- `api_predictive_analysis`: on the live path, regenerate the seeded
dataset, look the machine up (404 when absent), and return the analysis,
its rendered markup and the machine data, catching gateway failures as a
200 "Analysis Error"; on the mock path, the very first statement is an
f-string that reads the variable `machine_data`, which is never assigned
on this path, so the endpoint raises `NameError` before producing any
response.  The gateway and the markdown renderer are the `llm` and
`render` parameters; prompt building from the machine summary is
absorbed into `llm`. -/
def api_predictive_analysis (apiReady : Bool)
    (llm : Machine → Except String String) (render : String → String)
    (today : Int) (g : RNG) (machineId? : Option String) :
    Except String PredictiveResponse :=
  let machine_id := machineId?.getD ""
  if apiReady then
    let equipment_data := (generate_equipment_data today g).1
    match equipment_data.find? (fun m => m.machine_id == machine_id) with
    | none => Except.ok ⟨404, none, none, none, some "Machine not found", none⟩
    | some machine_data =>
      match llm machine_data with
      | Except.ok analysis =>
        Except.ok ⟨200, some analysis, some (render analysis), some machine_data, none, none⟩
      | Except.error e =>
        Except.ok ⟨200, some ("⚠️ Analysis Error: " ++ e),
          some (render ("⚠️ Analysis Error: " ++ e)), none, none, none⟩
  else
    Except.error "NameError: name machine_data is not defined"

/-- `error_handler.register_error_handlers`: an exception that escapes a
route handler is converted to a 500 response with body
`error = "Internal Server Error"` and the exception text as `message`. -/
def handle_exception (r : Except String PredictiveResponse) : PredictiveResponse :=
  match r with
  | Except.ok resp => resp
  | Except.error e => ⟨500, none, none, none, some "Internal Server Error", some e⟩

/-! ### The documented schema keys and per-field defaults -/

/-- The six required fields of the quality-insight schema. -/
def requiredKeys : List (List Char) :=
  [kRiskLevel, kRiskInterpretation, kKeyPoints, kActions, kClarifyingQuestions, kDisclaimer]

/-- The per-field default `generate_quality_insight` fills in for a
missing field of a parsed response (lines 95-106). -/
def defaultFor (k : List Char) : JsonVal :=
  if k = kDisclaimer then JsonVal.str canonicalDisclaimer
  else if k = kRiskLevel then jstr "MEDIUM"
  else if k = kRiskInterpretation then
    jstr "The observation requires attention and follow-up."
  else if k = kKeyPoints then
    jarr ["Review the observation details", "Consult with supervisor if needed"]
  else if k = kActions then
    jarr ["Document the observation", "Follow standard procedures", "Report if necessary"]
  else JsonVal.arr []

/-! ### Concrete LLM-response fixtures used by witnesses and
counterexamples -/

/-- A model response that is a bare JSON object carrying its own,
non-canonical disclaimer. -/
def customDisclaimerText : List Char :=
  "\x7b\"disclaimer\": \"Custom text.\"\x7d".data

/-- A model response with the object inside a fenced ```json code
block, carrying only a `riskLevel`. -/
def fencedHighRisk : List Char :=
  "```json\n\x7b\"riskLevel\": \"HIGH\"\x7d\n```".data

/-- A bare-brace model response carrying only a `riskLevel`. -/
def lowRiskBrace : List Char := "\x7b\"riskLevel\": \"LOW\"\x7d".data

/-- A model response with no JSON at all. -/
def noJsonText : List Char := "no json here at all".data

/-! ### Helper lemmas -/

/-- Dropping the Python whitespace class from an all-`'a'` list is the
identity. -/
theorem dropWhile_isPySpace_replicate (n : Nat) :
    List.dropWhile isPySpace (List.replicate n 'a') = List.replicate n 'a' := by
  cases n with
  | zero => rfl
  | succ m =>
    rw [List.replicate_succ, List.dropWhile_cons]
    simp [show isPySpace 'a' = false by decide]

/-- `pyStrip` of an all-`'a'` list is the identity. -/
theorem pyStrip_replicate (n : Nat) :
    pyStrip (List.replicate n 'a') = List.replicate n 'a' := by
  unfold pyStrip
  rw [dropWhile_isPySpace_replicate, List.reverse_replicate,
    dropWhile_isPySpace_replicate, List.reverse_replicate]

/-- Appending a new binding at the end does not shadow an absent key. -/
theorem lookupKey_append_absent (o : List (List Char × JsonVal))
    (k : List Char) (v : JsonVal) (h : lookupKey o k = none) :
    lookupKey (o ++ [(k, v)]) k = some v := by
  induction o with
  | nil => simp [lookupKey]
  | cons p rest ih =>
    by_cases hp : p.1 == k
    · simp [lookupKey, hp] at h
    · simp only [lookupKey, hp, if_false, List.cons_append,
        Bool.false_eq_true] at h ⊢
      exact ih h

/-- Appending a binding for a different key does not change a lookup. -/
theorem lookupKey_append_other (o : List (List Char × JsonVal))
    (k k1 : List Char) (v : JsonVal) (h : k ≠ k1) :
    lookupKey (o ++ [(k, v)]) k1 = lookupKey o k1 := by
  induction o with
  | nil => simp [lookupKey, beq_eq_false_iff_ne.mpr h]
  | cons p rest ih =>
    by_cases hp : p.1 == k1
    · simp [lookupKey, hp]
    · simp only [lookupKey, hp, if_false, List.cons_append,
        Bool.false_eq_true] at ih ⊢
      exact ih

/-- `hasKey` reflects `lookupKey`. -/
theorem hasKey_eq_isSome (o : List (List Char × JsonVal)) (k : List Char) :
    hasKey o k = (lookupKey o k).isSome := by
  induction o with
  | nil => rfl
  | cons p rest ih =>
    by_cases hp : p.1 == k
    · simp [hasKey, lookupKey, hp]
    · simp [hasKey, lookupKey, hp, ih]

/-- `setDefault` fills an absent key with the given value. -/
theorem lookupKey_setDefault_absent (o : List (List Char × JsonVal))
    (k : List Char) (v : JsonVal) (h : lookupKey o k = none) :
    lookupKey (setDefault o k v) k = some v := by
  have hk : hasKey o k = false := by rw [hasKey_eq_isSome, h]; rfl
  unfold setDefault
  rw [hk]
  simp only [Bool.false_eq_true, if_false]
  exact lookupKey_append_absent o k v h

/-- `setDefault` leaves a present key's value untouched. -/
theorem lookupKey_setDefault_present (o : List (List Char × JsonVal))
    (k : List Char) (v w : JsonVal) (h : lookupKey o k = some w) :
    lookupKey (setDefault o k v) k = some w := by
  have hk : hasKey o k = true := by rw [hasKey_eq_isSome, h]; rfl
  unfold setDefault
  rw [hk]
  simpa using h

/-- `setDefault` at one key does not change the lookup of another key. -/
theorem lookupKey_setDefault_other (o : List (List Char × JsonVal))
    (k k1 : List Char) (v : JsonVal) (h : k ≠ k1) :
    lookupKey (setDefault o k v) k1 = lookupKey o k1 := by
  unfold setDefault
  by_cases hk : hasKey o k
  · rw [hk]; simp
  · simp only [hk, Bool.false_eq_true, if_false]
    exact lookupKey_append_other o k k1 v h

/-- One combined description of `setDefault`'s effect on a lookup. -/
theorem lookupKey_setDefault (o : List (List Char × JsonVal)) (k : List Char)
    (v : JsonVal) (k1 : List Char) :
    lookupKey (setDefault o k v) k1 =
      (lookupKey o k1).elim (if k = k1 then some v else none) some := by
  by_cases hk1 : k = k1
  · subst hk1
    cases h : lookupKey o k with
    | none => rw [lookupKey_setDefault_absent _ _ _ h]; simp
    | some w => rw [lookupKey_setDefault_present _ _ _ _ h]; simp
  · rw [lookupKey_setDefault_other _ _ _ _ hk1]
    cases lookupKey o k1 <;> simp [hk1]

/-- The normalizer fills every missing required field with its documented
default. -/
theorem lookupKey_normalizeParsed (o : List (List Char × JsonVal))
    (k : List Char) (hmem : k ∈ requiredKeys) (habs : lookupKey o k = none) :
    lookupKey (normalizeParsed o) k = some (defaultFor k) := by
  fin_cases hmem <;>
  · simp only [normalizeParsed, lookupKey_setDefault, habs, Option.elim_none,
      Option.elim_some]
    rfl

/-! ### Theorems for the risk scorer claims -/

/-- Claim C1: for every machine reading processed by the risk scorer, the
computed health score equals exactly `100 - 95 * failure_probability`:
since the failure probability is clamped to at most `0.95`, the value
`100 - 95 * failure_probability` is at least `9.75`, so the `max(5, _)`
clamp never changes it.  (Stated about the values computed at
`app.py` lines 193-202, before the display rounding of lines 224-225.) -/
theorem health_score_inverse_of_failure_probability (r : MachineReading) :
    health_score r = 100 - 95 * failure_probability r := by
  have h : failure_probability r ≤ 95/100 := by
    unfold failure_probability
    exact min_le_left _ _
  unfold health_score
  rw [max_eq_right (by linarith)]
  ring

/-- Claim C4: the risk scorer's failure probability is clamped to at most
`0.95` for every input, and on the baseline reading
(runtime 0 h, maintenance 0 days, 70 °C, vibration 5) every risk term is
zero, so `failure_probability = 0` and `health_score = 100`. -/
theorem failure_probability_clamp_and_baseline :
    (∀ r : MachineReading, failure_probability r ≤ 95/100) ∧
      failure_probability ⟨0, 0, 70, 5⟩ = 0 ∧
      health_score ⟨0, 0, 70, 5⟩ = 100 := by
  refine ⟨fun r => ?_, ?_, ?_⟩
  · unfold failure_probability
    exact min_le_left _ _
  · unfold failure_probability runtimeRisk tempRisk vibrationRisk maintenanceRisk
    norm_num
  · unfold health_score failure_probability runtimeRisk tempRisk vibrationRisk maintenanceRisk
    norm_num

/-- Claim C8: `generate_equipment_data` (the default/fallback dataset)
calls `np.random.seed(42)` first, so its output is independent of the
ambient random state: two runs with the same current date agree exactly.
The per-machine maintenance-date-offset draw of the CSV-processing path
and the 12-point trend-chart simulation consume the ambient, unseeded
state: two ambient states that differ produce different outputs (shown
at the all-defaults CSV row, where the offset draw lands in the
`(90,180)` bucket and yields 90 versus 135 days). -/
theorem seeded_generator_vs_unseeded_draws :
    (∀ (today : Int) (n : Nat) (g₁ g₂ : RNG),
        generate_equipment_data today g₁ n = generate_equipment_data today g₂ n) ∧
      (processEquipmentData 0 [⟨none, none, none, none, none, none⟩] (fun _ => 0)).1 ≠
        (processEquipmentData 0 [⟨none, none, none, none, none, none⟩] (fun _ => 1/2)).1 ∧
      (trendData 0 (fun _ => 0)).1 ≠ (trendData 0 (fun _ => 1/2)).1 := by
  refine ⟨fun today n g₁ g₂ => rfl, by decide, by decide⟩

/-! ### Theorems for the quality-insight normalizer claims -/

/-- Claim C2, counterexample: on a parsed model output that carries its
own different disclaimer, the normalizer does not overwrite it with the
canonical sentence — the model's text passes through unchanged. -/
theorem disclaimer_overwrite_counterexample :
    lookupKey (generate_quality_insight customDisclaimerText) kDisclaimer =
      some (JsonVal.str "Custom text.".data) ∧
    "Custom text.".data ≠ canonicalDisclaimer := by
  exact ⟨rfl, by decide⟩

/-- Claim C2, amended: the disclaimer equals the canonical sentence on
the mock path, on the endpoint's safe-fallback path, on the
parse-failure fallback, and whenever the parsed model output has no
disclaimer field of its own; a parsed output that does carry a
disclaimer field keeps that value (it is not overwritten). -/
theorem disclaimer_canonical_unless_model_supplies_one :
    lookupKey mockInsight kDisclaimer = some (JsonVal.str canonicalDisclaimer) ∧
    lookupKey safeFallbackInsight kDisclaimer = some (JsonVal.str canonicalDisclaimer) ∧
    lookupKey fallbackInsight kDisclaimer = some (JsonVal.str canonicalDisclaimer) ∧
    (∀ (t : List Char) (fields : List (List Char × JsonVal)),
      parse_json_response t = some (JsonVal.obj fields) →
      lookupKey fields kDisclaimer = none →
      lookupKey (generate_quality_insight t) kDisclaimer =
        some (JsonVal.str canonicalDisclaimer)) ∧
    (∀ (t : List Char) (fields : List (List Char × JsonVal)) (w : JsonVal),
      parse_json_response t = some (JsonVal.obj fields) → fields ≠ [] →
      lookupKey fields kDisclaimer = some w →
      lookupKey (generate_quality_insight t) kDisclaimer = some w) := by
  refine ⟨rfl, rfl, rfl, fun t fields hp habs => ?_, fun t fields w hp hne hw => ?_⟩
  · have hgen : generate_quality_insight t =
        if fields.isEmpty = true then fallbackInsight else normalizeParsed fields := by
      unfold generate_quality_insight
      rw [hp]
    rw [hgen]
    by_cases hf : fields.isEmpty
    · rw [if_pos hf]; rfl
    · rw [if_neg hf]
      have h := lookupKey_normalizeParsed fields kDisclaimer (by decide) habs
      simpa using h
  · have hgen : generate_quality_insight t =
        if fields.isEmpty = true then fallbackInsight else normalizeParsed fields := by
      unfold generate_quality_insight
      rw [hp]
    rw [hgen, if_neg (by simpa using hne)]
    unfold normalizeParsed
    rw [lookupKey_setDefault_other _ _ _ _ (by decide),
      lookupKey_setDefault_other _ _ _ _ (by decide),
      lookupKey_setDefault_other _ _ _ _ (by decide),
      lookupKey_setDefault_other _ _ _ _ (by decide),
      lookupKey_setDefault_other _ _ _ _ (by decide),
      lookupKey_setDefault_present _ _ _ _ hw]

/-- Claim C2, witness: a parsed output without a disclaimer field gets
the canonical sentence. -/
theorem disclaimer_canonical_unless_model_supplies_one_witness :
    lookupKey (generate_quality_insight lowRiskBrace) kDisclaimer =
      some (JsonVal.str canonicalDisclaimer) :=
  disclaimer_canonical_unless_model_supplies_one.2.2.2.1 lowRiskBrace
    [(kRiskLevel, JsonVal.str "LOW".data)] rfl rfl

/-- Claim C7: in structured mode the raw text is parsed by first trying
the fenced code block, then, when that is absent or unparsable, the
first-to-last brace span; when both fail the whole fallback dictionary
is returned (the request still succeeds), and any required field missing
from a parsed object is filled with its documented default. -/
theorem parse_strategy_and_defaults (t : List Char) :
    (∀ v, (findFenced t).bind jsonLoads = some v → parse_json_response t = some v) ∧
    ((findFenced t).bind jsonLoads = none →
      parse_json_response t = (findBrace t).bind jsonLoads) ∧
    (parse_json_response t = none → generate_quality_insight t = fallbackInsight) ∧
    (∀ fields k, parse_json_response t = some (JsonVal.obj fields) → fields ≠ [] →
      k ∈ requiredKeys → lookupKey fields k = none →
      lookupKey (generate_quality_insight t) k = some (defaultFor k)) := by
  refine ⟨fun v h => ?_, fun h => ?_, fun h => ?_, fun fields k hp hne hmem habs => ?_⟩
  · unfold parse_json_response
    rw [h]
  · unfold parse_json_response
    rw [h]
  · unfold generate_quality_insight
    rw [h]
  · have hgen : generate_quality_insight t =
        if fields.isEmpty = true then fallbackInsight else normalizeParsed fields := by
      unfold generate_quality_insight
      rw [hp]
    rw [hgen, if_neg (by simpa using hne)]
    exact lookupKey_normalizeParsed fields k hmem habs

/-- Claim C7, witness: the fenced block wins on a fenced response and
its missing `actions` field is filled with the documented default; a
response with no JSON at all yields the full fallback dictionary. -/
theorem parse_strategy_and_defaults_witness :
    parse_json_response fencedHighRisk =
      some (JsonVal.obj [(kRiskLevel, JsonVal.str "HIGH".data)]) ∧
    lookupKey (generate_quality_insight fencedHighRisk) kActions =
      some (defaultFor kActions) ∧
    generate_quality_insight noJsonText = fallbackInsight := by
  refine ⟨?_, ?_, ?_⟩
  · exact (parse_strategy_and_defaults fencedHighRisk).1 _ rfl
  · exact (parse_strategy_and_defaults fencedHighRisk).2.2.2
      [(kRiskLevel, JsonVal.str "HIGH".data)] kActions rfl
      (List.cons_ne_nil _ _) (by decide) rfl
  · exact (parse_strategy_and_defaults noJsonText).2.2.1 rfl

/-! ### Theorems for the interpreter-endpoint claims -/

/-- Claim C3, counterexample: an unrecognized mode does not make the
endpoint fail with an InvalidConfiguration error — on the mock path it
returns a 200 response whose analysis is the generic mock message tagged
with the uppercased mode. -/
theorem unknown_mode_no_invalid_configuration_counterexample :
    api_interpret (fun _ _ => Except.ok "ok") false (some "fab log")
        (some "translate-to-klingon") =
      ⟨200, "**[MOCK TRANSLATE-TO-KLINGON]**\nEverything looks operational. Proceed with standard protocol."⟩ := by
  decide

/-- Claim C3, amended: for a mode outside the three recognized styles the
prompt lookup yields no prompt (in particular not the summary prompt),
and the endpoint does not fail: with no credential it returns the 200
generic mock analysis tagged with the uppercased mode, and with a
credential it invokes the gateway with an absent system prompt, its
outcome returned as a 200 response either way. -/
theorem unknown_mode_silent_fallback (mode : String) (text? : Option String)
    (llm : Option String → String → Except String String)
    (h1 : mode ≠ "summary") (h2 : mode ≠ "email") (h3 : mode ≠ "manager") :
    prompts_get mode = none ∧
    api_interpret llm false text? (some mode) =
      ⟨200, "**[MOCK " ++ pyUpper mode ++
        "]**\nEverything looks operational. Proceed with standard protocol."⟩ ∧
    api_interpret llm true text? (some mode) =
      (match llm none (text?.getD "") with
       | Except.ok content => ⟨200, content⟩
       | Except.error e => ⟨200, "⚠️ Authentication Error: " ++ e⟩) := by
  have hp : prompts_get mode = none := by
    unfold prompts_get
    rw [if_neg h1, if_neg h2, if_neg h3]
  refine ⟨hp, rfl, ?_⟩
  have hlive : api_interpret llm true text? (some mode) =
      (match llm (prompts_get mode) (text?.getD "") with
       | Except.ok content => ⟨200, content⟩
       | Except.error e => ⟨200, "⚠️ Authentication Error: " ++ e⟩) := rfl
  rw [hlive, hp]

/-- Claim C3, witness: the amended statement at the unrecognized mode
`"translate-to-klingon"`. -/
theorem unknown_mode_silent_fallback_witness :
    prompts_get "translate-to-klingon" = none ∧
    (api_interpret (fun _ _ => Except.ok "gateway-reply") false (some "fab log")
        (some "translate-to-klingon")).analysis =
      "**[MOCK TRANSLATE-TO-KLINGON]**\nEverything looks operational. Proceed with standard protocol." := by
  have h := unknown_mode_silent_fallback "translate-to-klingon" (some "fab log")
    (fun _ _ => Except.ok "gateway-reply") (by decide) (by decide) (by decide)
  refine ⟨h.1, ?_⟩
  rw [h.2.1]
  decide

/-- Claim C10: a request body without a `mode` field behaves exactly as
one with `mode = "summary"`, and a body without a `text` field behaves
exactly as one with the empty string as text. -/
theorem interpret_body_defaults (llm : Option String → String → Except String String)
    (apiReady : Bool) :
    (∀ text?, api_interpret llm apiReady text? none =
        api_interpret llm apiReady text? (some "summary")) ∧
    (∀ mode?, api_interpret llm apiReady none mode? =
        api_interpret llm apiReady (some "") mode?) :=
  ⟨fun _ => rfl, fun _ => rfl⟩

/-! ### Theorems for the quality-insight endpoint claims -/

/-- Claim C5: with the stripped observation text at the boundary lengths,
the endpoint rejects length 19 and length 1001 with a 400 validation
error without reaching the LLM gateway, accepts lengths 20 and 1000 with
a 200 response, and in general a 400 response never reaches the
gateway. -/
theorem observation_length_bounds (apiReady : Bool)
    (llmResult : Except String (List Char)) (body : QualityBody) :
    ((pyStrip (body.observationText?.getD [])).length = 19 →
      (quality_insight apiReady llmResult body).status = 400 ∧
      (quality_insight apiReady llmResult body).error? =
        some "observationText must be at least 20 characters" ∧
      (quality_insight apiReady llmResult body).calledLLM = false) ∧
    ((pyStrip (body.observationText?.getD [])).length = 20 →
      (quality_insight apiReady llmResult body).status = 200) ∧
    ((pyStrip (body.observationText?.getD [])).length = 1000 →
      (quality_insight apiReady llmResult body).status = 200) ∧
    ((pyStrip (body.observationText?.getD [])).length = 1001 →
      (quality_insight apiReady llmResult body).status = 400 ∧
      (quality_insight apiReady llmResult body).error? =
        some "observationText must be at most 1000 characters" ∧
      (quality_insight apiReady llmResult body).calledLLM = false) ∧
    ((quality_insight apiReady llmResult body).status = 400 →
      (quality_insight apiReady llmResult body).calledLLM = false) := by
  unfold quality_insight
  generalize pyStrip (body.observationText?.getD []) = o
  refine ⟨fun h => ?_, fun h => ?_, fun h => ?_, fun h => ?_, fun h => ?_⟩
  · have h0 : o.isEmpty = false := by
      cases o with
      | nil => simp at h
      | cons a l => rfl
    simp [h0, h]
  · have h0 : o.isEmpty = false := by
      cases o with
      | nil => simp at h
      | cons a l => rfl
    simp only [h0, h]
    by_cases hA : apiReady <;> cases llmResult <;> simp [hA]
  · have h0 : o.isEmpty = false := by
      cases o with
      | nil => simp at h
      | cons a l => rfl
    simp only [h0, h]
    by_cases hA : apiReady <;> cases llmResult <;> simp [hA]
  · have h0 : o.isEmpty = false := by
      cases o with
      | nil => simp at h
      | cons a l => rfl
    simp [h0, h]
  · by_cases h0 : o.isEmpty
    · rw [if_pos h0] at h ⊢
    · rw [if_neg h0] at h ⊢
      by_cases h1 : o.length < 20
      · rw [if_pos h1] at h ⊢
      · rw [if_neg h1] at h ⊢
        by_cases h2 : 1000 < o.length
        · rw [if_pos h2] at h ⊢
        · rw [if_neg h2] at h ⊢
          by_cases hA : apiReady
          · rw [if_pos hA] at h ⊢
            cases llmResult <;> simp at h
          · rw [if_neg hA] at h ⊢

/-- Claim C5, witness: the four boundary lengths on concrete all-`'a'`
observation texts. -/
theorem observation_length_bounds_witness :
    (quality_insight true (Except.ok [])
      ⟨some (List.replicate 19 'a'), none⟩).status = 400 ∧
    (quality_insight true (Except.ok [])
      ⟨some (List.replicate 20 'a'), none⟩).status = 200 ∧
    (quality_insight true (Except.ok [])
      ⟨some (List.replicate 1000 'a'), none⟩).status = 200 ∧
    (quality_insight true (Except.ok [])
      ⟨some (List.replicate 1001 'a'), none⟩).status = 400 ∧
    (quality_insight true (Except.ok [])
      ⟨some (List.replicate 1001 'a'), none⟩).calledLLM = false := by
  have h19 := (observation_length_bounds true (Except.ok [])
    ⟨some (List.replicate 19 'a'), none⟩).1
    (by show (pyStrip (List.replicate 19 'a')).length = 19
        rw [pyStrip_replicate, List.length_replicate])
  have h20 := (observation_length_bounds true (Except.ok [])
    ⟨some (List.replicate 20 'a'), none⟩).2.1
    (by show (pyStrip (List.replicate 20 'a')).length = 20
        rw [pyStrip_replicate, List.length_replicate])
  have h1000 := (observation_length_bounds true (Except.ok [])
    ⟨some (List.replicate 1000 'a'), none⟩).2.2.1
    (by show (pyStrip (List.replicate 1000 'a')).length = 1000
        rw [pyStrip_replicate, List.length_replicate])
  have h1001 := (observation_length_bounds true (Except.ok [])
    ⟨some (List.replicate 1001 'a'), none⟩).2.2.2.1
    (by show (pyStrip (List.replicate 1001 'a')).length = 1001
        rw [pyStrip_replicate, List.length_replicate])
  exact ⟨h19.1, h20, h1000, h1001.1, h1001.2.2⟩

/-- Claim C9: the endpoint validates the stripped observation text: an
empty or whitespace-only text is rejected as "observationText is
required", and the 20/1000 length bounds are checked on the stripped
text, all without reaching the LLM gateway. -/
theorem observation_stripped_validation (apiReady : Bool)
    (llmResult : Except String (List Char)) (body : QualityBody) :
    (pyStrip (body.observationText?.getD []) = [] →
      quality_insight apiReady llmResult body =
        ⟨400, some "observationText is required", none, false⟩) ∧
    (pyStrip (body.observationText?.getD []) ≠ [] →
      (pyStrip (body.observationText?.getD [])).length < 20 →
      (quality_insight apiReady llmResult body).status = 400 ∧
      (quality_insight apiReady llmResult body).error? =
        some "observationText must be at least 20 characters" ∧
      (quality_insight apiReady llmResult body).calledLLM = false) ∧
    (1000 < (pyStrip (body.observationText?.getD [])).length →
      (quality_insight apiReady llmResult body).status = 400 ∧
      (quality_insight apiReady llmResult body).error? =
        some "observationText must be at most 1000 characters" ∧
      (quality_insight apiReady llmResult body).calledLLM = false) := by
  unfold quality_insight
  generalize pyStrip (body.observationText?.getD []) = o
  refine ⟨fun h => ?_, fun hne hlt => ?_, fun hgt => ?_⟩
  · subst h
    rfl
  · have h0 : o.isEmpty = false := by
      cases o with
      | nil => exact absurd rfl hne
      | cons a l => rfl
    simp [h0, hlt]
  · have h0 : o.isEmpty = false := by
      cases o with
      | nil => simp at hgt
      | cons a l => rfl
    have hnl : ¬ o.length < 20 := by omega
    simp [h0, hnl, hgt]

/-- Claim C9, witness: a 20-character raw text that reaches length 20
only through surrounding whitespace is rejected by the at-least-20
check, and a whitespace-only text is rejected as required. -/
theorem observation_stripped_validation_witness :
    (' ' :: (List.replicate 18 'a' ++ [' '])).length = 20 ∧
    (quality_insight true (Except.ok [])
      ⟨some (' ' :: (List.replicate 18 'a' ++ [' '])), none⟩).status = 400 ∧
    (quality_insight true (Except.ok [])
      ⟨some (' ' :: (List.replicate 18 'a' ++ [' '])), none⟩).error? =
      some "observationText must be at least 20 characters" ∧
    (quality_insight true (Except.ok [])
      ⟨some [' ', ' ', ' '], none⟩).error? = some "observationText is required" := by
  have hmid := (observation_stripped_validation true (Except.ok [])
    ⟨some (' ' :: (List.replicate 18 'a' ++ [' '])), none⟩).2.1 (by decide) (by decide)
  have hreq := (observation_stripped_validation true (Except.ok [])
    ⟨some [' ', ' ', ' '], none⟩).1 (by decide)
  exact ⟨by decide, hmid.1, hmid.2.1, by rw [hreq]⟩

/-! ### Theorems for the predictive-analysis endpoint claim -/

/-- Claim C6: on the mock path (no credential configured) the endpoint
never produces the documented 404-or-analysis outcome for any machine id
— its first statement reads the undefined variable `machine_data`, so
every such request raises `NameError` and the registered error handler
turns it into a 500 Internal Server Error. -/
theorem predictive_mock_path_name_error (llm : Machine → Except String String)
    (render : String → String) (today : Int) (g : RNG)
    (machineId? : Option String) :
    handle_exception (api_predictive_analysis false llm render today g machineId?) =
      ⟨500, none, none, none, some "Internal Server Error",
        some "NameError: name machine_data is not defined"⟩ := rfl
